import Mathlib

/-!
Verification of the `streamlit_desktop_app` core (`streamlit_desktop_app/core.py`)
against its natural-language specification.

The Python functions are shallowly embedded as pure Lean functions.  Effects are
made explicit:
* calls to external collaborators (`socket.bind`, `requests.get`, `time.time`,
  `time.sleep`, `stcli.main`, `webview`, `multiprocessing.Process`) are driven
  by explicit oracle inputs (lists of outcomes / clock readings), exactly the
  way the repository's own unit tests drive them with mocks;
* raised exceptions become explicit result constructors;
* counted side effects (requests issued, sleeps performed, warnings logged,
  process operations) are recorded in the returned statistics / event trace.
Times and durations (Python floats from `time.time`) are modelled as rationals.
-/

namespace StreamlitDesktopApp

/-! ### Readiness prober: `wait_for_server` (core.py lines 145-170)

`requests.get(url)` has three relevant outcomes: an HTTP response carrying a
status code, a `requests.ConnectionError`, or any other `requests.RequestException`.
Each probe consumes the next element of an oracle list of such outcomes.
`time.time()` is called once before the loop (the `start_time`) and then once
inside each `ConnectionError` handler; each call consumes the next element of an
oracle list of clock readings, as the repository's tests do with
`mock_time.side_effect`. -/

/-- Outcome of one `requests.get` call as seen by `wait_for_server`. -/
inductive ProbeResult where
  | response (status : Nat)
  | connError
  | reqError
  deriving Repr, DecidableEq

/-- How a run of `wait_for_server` ends.  `fuelExhausted` is a model artifact:
the oracle list of probe outcomes (or clock readings) ran out before the Python
loop terminated; no claim is settled on such runs. -/
inductive WaitResult where
  | ready
  | timedOut
  | networkError
  | fuelExhausted
  deriving Repr, DecidableEq

/-- Statistics of a run of `wait_for_server`: number of `requests.get` calls,
number of `time.sleep(retry_interval)` calls, and the final outcome. -/
structure WaitStats where
  requests : Nat
  sleeps : Nat
  result : WaitResult
  deriving Repr, DecidableEq

/-- The `while True` loop of `wait_for_server` (core.py lines 160-170).
`startTime` is the value captured at line 157; `events` feeds successive
`requests.get` outcomes; `times` feeds successive `time.time()` readings made
inside the `ConnectionError` handler.  Mirrors the source: a response breaks
the loop only when `status_code == 200`; a `ConnectionError` raises
`TimeoutError` when `time.time() - start_time > timeout` and otherwise sleeps
and retries; any other `RequestException` raises `NetworkError` at once. -/
def waitForServerLoop (timeout startTime : ℚ) :
    List ProbeResult → List ℚ → WaitStats
  | [], _ => ⟨0, 0, .fuelExhausted⟩
  | .response status :: rest, times =>
      if status = 200 then
        ⟨1, 0, .ready⟩
      else
        let r := waitForServerLoop timeout startTime rest times
        ⟨r.requests + 1, r.sleeps, r.result⟩
  | .connError :: rest, times =>
      match times with
      | [] => ⟨1, 0, .fuelExhausted⟩
      | t :: trest =>
          if t - startTime > timeout then
            ⟨1, 0, .timedOut⟩
          else
            let r := waitForServerLoop timeout startTime rest trest
            ⟨r.requests + 1, r.sleeps + 1, r.result⟩
  | .reqError :: _, _ => ⟨1, 0, .networkError⟩

/-- `wait_for_server(port, timeout, retry_interval)` (core.py lines 145-170).
The first clock reading is `start_time`; the rest feed the timeout checks.
The port and `retry_interval` do not influence control flow (the sleep duration
is constant), so only `timeout` appears. -/
def wait_for_server (timeout : ℚ) (events : List ProbeResult)
    (times : List ℚ) : WaitStats :=
  match times with
  | [] => ⟨0, 0, .fuelExhausted⟩
  | t0 :: trest => waitForServerLoop timeout t0 events trest

/-! ### Port allocator: `find_free_port` (core.py lines 91-119)

Each loop iteration opens a socket and calls `bind`; the oracle list `binds`
holds one outcome per iteration — either `socket.error` or success with the
OS-assigned port read back by `getsockname`.  The Python loop runs
`for attempt in range(max_attempts)` and tests `attempt == max_attempts - 1`
inside the error handler; structurally this is recursion over a list of
per-attempt outcomes whose length is `max_attempts`, the last-attempt test
becoming "the rest of the list is empty". -/

/-- Outcome of one `socket.bind` attempt inside `find_free_port`. -/
inductive BindResult where
  | fail
  | ok (port : Nat)
  deriving Repr, DecidableEq

/-- How a run of `find_free_port` ends: a returned port, the
`PortBindingError` raised inside the error handler on the last attempt
(message "Failed to find an available port"), or the `PortBindingError` raised
after the loop (message "Failed to find a port in the allowed range"). -/
inductive PortOutcome where
  | found (port : Nat)
  | bindError
  | rangeError
  deriving Repr, DecidableEq

/-- Statistics of a run of `find_free_port`: number of bind attempts performed,
number of `time.sleep(0.1)` backoffs, and the outcome. -/
structure PortStats where
  attempts : Nat
  sleeps : Nat
  outcome : PortOutcome
  deriving Repr, DecidableEq

/-- `find_free_port(min_port, max_port, max_attempts)` (core.py lines 105-119),
with `binds` holding the per-attempt bind outcomes; `binds.length` is
`max_attempts`.  Mirrors the source: a successful bind returns the port only if
`min_port <= port <= max_port`, otherwise the loop continues with no sleep; a
bind failure on the last attempt raises `PortBindingError`, on earlier attempts
sleeps 0.1s and retries; an exhausted loop raises the range error. -/
def find_free_port (minPort maxPort : Nat) : List BindResult → PortStats
  | [] => ⟨0, 0, .rangeError⟩
  | .ok port :: rest =>
      if minPort ≤ port ∧ port ≤ maxPort then
        ⟨1, 0, .found port⟩
      else
        let r := find_free_port minPort maxPort rest
        ⟨r.attempts + 1, r.sleeps, r.outcome⟩
  | .fail :: rest =>
      if rest.isEmpty then
        ⟨1, 0, .bindError⟩
      else
        let r := find_free_port minPort maxPort rest
        ⟨r.attempts + 1, r.sleeps + 1, r.outcome⟩

/-! ### Server launcher: `run_streamlit` (core.py lines 122-142)

`run_streamlit` builds the argument vector, installs it as `sys.argv`, and calls
`stcli.main()`; any exception raised in the `try` block is wrapped as a
`ProcessError`.  The oracle `mainExc` is the exception message raised by
`stcli.main()`, if any. -/

/-- Observable effect of one `run_streamlit` call: the argument vector it
installed as `sys.argv`, whether it delegated to `stcli.main`, and either
normal return or the raised `ProcessError` message. -/
structure RunOutcome where
  argv : List String
  stcliCalled : Bool
  result : Except String Unit
  deriving Repr

/-- `run_streamlit(script_path, options)` (core.py lines 122-142) with the
outcome of `stcli.main()` supplied as an oracle.  Mirrors the source:
`args = ["streamlit", "run", script_path] + [f"--{key}={value}" ...]` in the
options' own order, `sys.argv = args`, then `stcli.main()`; an exception `e`
becomes `ProcessError(f"Failed to run Streamlit: {e}")`. -/
def run_streamlit (scriptPath : String) (options : List (String × String))
    (mainExc : Option String) : RunOutcome :=
  let args := "streamlit" :: "run" :: scriptPath ::
    options.map (fun kv => "--" ++ kv.1 ++ "=" ++ kv.2)
  { argv := args
    stcliCalled := true
    result :=
      match mainExc with
      | none => .ok ()
      | some e => .error ("Failed to run Streamlit: " ++ e) }

/-! ### Input validation (core.py lines 40-88)

Python values arriving from a dynamically-typed caller are modelled with an
explicit tag for "is of the expected type". -/

/-- A `script_path` argument, abstracting `pathlib.Path(script_path).resolve()`:
`resolveOk` is false when the resolution call itself raises (possible only for
degenerate strings such as ones with embedded null bytes), `isFile` is the
result of `path.is_file()`, and `suffixLower` is `path.suffix.lower()`. -/
structure ScriptPath where
  raw : String
  resolveOk : Bool
  isFile : Bool
  suffixLower : String
  deriving Repr, DecidableEq

/-- Result of `validate_script_path`: normal return, a raised
`ValidationError`, or an exception that escapes unwrapped (`uncaughtError`:
in test mode a failed resolution reaches `return path` with `path` unbound,
raising an `UnboundLocalError` that nothing catches). -/
inductive ValResult where
  | ok
  | validationError (msg : String)
  | uncaughtError
  deriving Repr, DecidableEq

/-- `validate_script_path(script_path, _test_mode)` (core.py lines 40-62).
Mirrors the source: when resolution succeeds, the existence / `.py`-suffix
check runs only outside test mode; when resolution raises, outside test mode
the exception is wrapped as a `ValidationError`, while in test mode the
`return path` in the handler raises `UnboundLocalError`. -/
def validate_script_path (s : ScriptPath) (testMode : Bool) : ValResult :=
  if s.resolveOk then
    if testMode then .ok
    else if s.isFile ∧ s.suffixLower = ".py" then .ok
    else .validationError "Error validating script path: Invalid script path"
  else
    if testMode then .uncaughtError
    else .validationError "Error validating script path"

/-- One entry of a caller-supplied options dict: key and value each tagged
with whether the Python object is a `str`. -/
structure OptEntry where
  keyIsStr : Bool
  key : String
  valIsStr : Bool
  val : String
  deriving Repr, DecidableEq

/-- A caller-supplied `options` argument: `None`, a non-dict object, or a dict
given as its insertion-ordered entry list. -/
inductive OptionsArg where
  | noOptions
  | notDict
  | dict (entries : List OptEntry)
  deriving Repr, DecidableEq

/-- `validate_options(options)` (core.py lines 65-88).  Mirrors the source:
`None` becomes `{}`, a non-dict raises, a dict with any non-string key or
value raises, otherwise the dict is returned unchanged. -/
def validate_options : OptionsArg → Except String (List (String × String))
  | .noOptions => .ok []
  | .notDict => .error "Options must be a dictionary"
  | .dict entries =>
      if entries.all (fun e => e.keyIsStr && e.valIsStr) then
        .ok (entries.map (fun e => (e.key, e.val)))
      else
        .error "Option keys and values must be strings"

/-! ### Configuration Set merge (core.py lines 208-235)

Python dicts are modelled as insertion-ordered association lists;
`{**d1, **d2}` updates in place the value of each key of `d2` already present
in `d1` and appends the rest, which is exactly `foldl` of single-key insertion. -/

/-- Update-or-append of one key/value pair, the effect of inserting `k: v`
into a dict displayed as an association list. -/
def dictInsert (d : List (String × String)) (k v : String) :
    List (String × String) :=
  if d.any (fun e => e.1 = k) then
    d.map (fun e => if e.1 = k then (k, v) else e)
  else
    d ++ [(k, v)]

/-- The Python merge `{**d, **entries}` on association lists. -/
def dictMerge (d : List (String × String)) (entries : List (String × String)) :
    List (String × String) :=
  entries.foldl (fun acc kv => dictInsert acc kv.1 kv.2) d

/-- Value lookup in an association-list dict. -/
def dictGet (d : List (String × String)) (k : String) : Option String :=
  (d.find? (fun e => e.1 = k)).map (fun e => e.2)

/-- The `overridden_options` list of core.py lines 210-215. -/
def overridden_options : List String :=
  ["server.address", "server.port", "server.headless", "global.developmentMode"]

/-- The four "secure default options" of core.py lines 229-234, in source
order, with the allocated port. -/
def secureDefaults (port : Nat) : List (String × String) :=
  [("server.address", "localhost"), ("server.port", toString port),
   ("server.headless", "true"), ("global.developmentMode", "false")]

/-- The final Configuration Set built at core.py lines 229-235:
`{**secureDefaults, **options}`. -/
def finalOptions (port : Nat) (userOpts : List (String × String)) :
    List (String × String) :=
  dictMerge (secureDefaults port) userOpts

/-! ### Orchestrator: `start_desktop_app` (core.py lines 173-269)

The orchestrator's observable behaviour is an event trace (warnings logged,
port allocation, child-process operations, readiness probe, window display)
plus the options passed to the spawned child and the final result.  Outcomes
of the collaborators it calls are supplied by an environment oracle, the way
the repository's tests mock them. -/

/-- One observable step of `start_desktop_app`. -/
inductive Event where
  | warn (key : String)
  | allocPort
  | spawnChild
  | startChild
  | probe
  | openWindow
  | terminateChild
  | joinChild
  deriving Repr, DecidableEq

/-- Final result of `start_desktop_app`: normal return, a `StreamlitAppError`
tagged with its wrapping context, or a non-`StreamlitAppError` exception
escaping (only the `UnboundLocalError` edge of test-mode validation). -/
inductive AppResult where
  | ok
  | appError (stage : String)
  | uncaught
  deriving Repr, DecidableEq

/-- Error raised by `wait_for_server` as observed by the orchestrator. -/
inductive WaitErr where
  | timeout
  | network
  deriving Repr, DecidableEq

/-- Environment oracle for one `start_desktop_app` run: whether `pytest` is in
`sys.modules`, the outcome of `find_free_port` (`none` = `PortBindingError`),
the outcome of `wait_for_server` (`none` = returned normally), whether the
webview call raises, and what `streamlit_process.is_alive()` reports in the
`finally` block. -/
structure Env where
  pytestLoaded : Bool
  portAlloc : Option Nat
  waitErr : Option WaitErr
  webviewFails : Bool
  childAlive : Bool
  deriving Repr, DecidableEq

/-- The caller-supplied `title` argument: whether the Python object is a
`str`, and whether `title.strip()` is empty (the source rejects the title when
`not isinstance(title, str) or not title.strip()`). -/
structure TitleArg where
  isStr : Bool
  blank : Bool
  deriving Repr, DecidableEq

/-- An int-typed argument (`width` or `height`) with its type tag. -/
structure IntArg where
  isInt : Bool
  val : Int
  deriving Repr, DecidableEq

/-- Full argument list of one `start_desktop_app` call. -/
structure AppInput where
  script : ScriptPath
  title : TitleArg
  width : IntArg
  height : IntArg
  options : OptionsArg
  deriving Repr, DecidableEq

/-- Observable outcome of one `start_desktop_app` run: the event trace, the
options dict passed to the spawned child process (when one was spawned), and
the final result. -/
structure AppRun where
  trace : List Event
  spawnedOptions : Option (List (String × String))
  result : AppResult
  deriving Repr, DecidableEq

/-- `start_desktop_app(script_path, title, width, height, options)`
(core.py lines 173-269).  Mirrors the source: validation (script path with
`_test_mode='pytest' in sys.modules`, options, title, width, height) runs
first and any `ValidationError` is re-raised as a `StreamlitAppError` before
anything else happens; then warnings are logged for the mandatory keys present
in the caller options, the port is allocated, the final Configuration Set is
built as `{**secureDefaults, **options}`, the child process is created and
started, the readiness probe and then the webview run inside a `try` whose
`finally` terminates and joins the child if `is_alive()`; every exception in
the outer `try` is wrapped as `StreamlitAppError("Failed to start desktop
app: ...")`. -/
def start_desktop_app (inp : AppInput) (env : Env) : AppRun :=
  match validate_script_path inp.script env.pytestLoaded with
  | .uncaughtError => ⟨[], none, .uncaught⟩
  | .validationError _ => ⟨[], none, .appError "Validation error"⟩
  | .ok =>
    match validate_options inp.options with
    | .error _ => ⟨[], none, .appError "Validation error"⟩
    | .ok opts =>
      if ¬ inp.title.isStr ∨ inp.title.blank then
        ⟨[], none, .appError "Validation error"⟩
      else if ¬ inp.width.isInt ∨ inp.width.val ≤ 0 then
        ⟨[], none, .appError "Validation error"⟩
      else if ¬ inp.height.isInt ∨ inp.height.val ≤ 0 then
        ⟨[], none, .appError "Validation error"⟩
      else
        let warns := (overridden_options.filter
          (fun k => opts.any (fun e => e.1 = k))).map Event.warn
        match env.portAlloc with
        | none =>
            ⟨warns ++ [.allocPort], none, .appError "Failed to start desktop app"⟩
        | some port =>
          let fopts := finalOptions port opts
          let cleanup : List Event :=
            if env.childAlive then [.terminateChild, .joinChild] else []
          match env.waitErr with
          | some _ =>
              ⟨warns ++ [.allocPort, .spawnChild, .startChild, .probe] ++ cleanup,
               some fopts, .appError "Failed to start desktop app"⟩
          | none =>
              if env.webviewFails then
                ⟨warns ++ [.allocPort, .spawnChild, .startChild, .probe, .openWindow]
                   ++ cleanup,
                 some fopts, .appError "Failed to start desktop app"⟩
              else
                ⟨warns ++ [.allocPort, .spawnChild, .startChild, .probe, .openWindow]
                   ++ cleanup,
                 some fopts, .ok⟩

example : wait_for_server 10 [.response 200] [0] = ⟨1, 0, .ready⟩ := by decide

example : wait_for_server 10 [.connError, .connError, .response 200]
    [0, 1, 2] = ⟨3, 2, .ready⟩ := by
  norm_num [wait_for_server, waitForServerLoop]

example : wait_for_server 1 [.connError, .connError] [0, 2] = ⟨1, 0, .timedOut⟩ := by
  norm_num [wait_for_server, waitForServerLoop]

example : find_free_port 1024 65535 [.fail, .fail, .ok 12345] = ⟨3, 2, .found 12345⟩ := by
  decide

example : find_free_port 1024 65535 [.fail, .fail, .fail] = ⟨3, 2, .bindError⟩ := by
  decide

example : find_free_port 1024 65535 [.ok 80, .ok 90] = ⟨2, 0, .rangeError⟩ := by
  decide

/-! ## Helper lemmas -/

/-- A returned port was checked against the range before being returned. -/
theorem find_free_port_found_in_range (minPort maxPort : Nat)
    (binds : List BindResult) (p : Nat)
    (h : (find_free_port minPort maxPort binds).outcome = .found p) :
    minPort ≤ p ∧ p ≤ maxPort := by
  induction binds with
  | nil => simp [find_free_port] at h
  | cons b rest ih =>
    cases b with
    | ok q =>
      simp only [find_free_port] at h
      split at h
      · next hq => simp only [PortOutcome.found.injEq] at h; exact h ▸ hq
      · exact ih h
    | fail =>
      simp only [find_free_port] at h
      split at h
      · simp at h
      · exact ih h

/-- After `k` bind failures followed by a successful in-range bind, the loop
returns that port with `k + 1` attempts and `k` sleeps. -/
theorem find_free_port_fail_then_ok (minPort maxPort : Nat)
    (k : Nat) (p : Nat) (rest : List BindResult)
    (h1 : minPort ≤ p) (h2 : p ≤ maxPort) :
    find_free_port minPort maxPort
        (List.replicate k .fail ++ .ok p :: rest) =
      ⟨k + 1, k, .found p⟩ := by
  induction k with
  | zero =>
    simp only [List.replicate, List.nil_append, find_free_port]
    rw [if_pos ⟨h1, h2⟩]
  | succ j ih =>
    rw [List.replicate_succ, List.cons_append]
    simp only [find_free_port]
    rw [if_neg]
    · rw [ih]
    · cases j with
      | zero => simp
      | succ i => simp [List.replicate_succ]

/-- On a non-empty run of bind attempts that all fail, the loop raises the
bind error after one attempt per element and one sleep between consecutive
attempts. -/
theorem find_free_port_all_fail (minPort maxPort : Nat) :
    ∀ (ls : List BindResult), (∀ x ∈ ls, x = .fail) → ls ≠ [] →
      find_free_port minPort maxPort ls =
        ⟨ls.length, ls.length - 1, .bindError⟩ := by
  intro ls
  induction ls with
  | nil => intro _ h; exact absurd rfl h
  | cons b rest ih =>
    intro hall _
    have hb : b = .fail := hall b (by simp)
    subst hb
    cases rest with
    | nil => simp [find_free_port]
    | cons c rs =>
      have hrest : find_free_port minPort maxPort (c :: rs) =
          ⟨rs.length + 1, rs.length, .bindError⟩ := by
        have h := ih (fun x hx => hall x (List.mem_cons_of_mem _ hx)) (by simp)
        simpa using h
      simp [find_free_port, hrest]

/-! ## Claims -/

/-- C4: `find_free_port` never returns a port outside `[min_port, max_port]`,
and whenever the bind call fails exactly `k` times (with `k < max_attempts`,
i.e. the failures do not exhaust the attempt list) and then succeeds with an
in-range port, it returns that port after exactly `k + 1` bind attempts with
exactly `k` intervening backoff sleeps. -/
theorem find_free_port_range_and_retry :
    (∀ (minPort maxPort : Nat) (binds : List BindResult) (p : Nat),
        (find_free_port minPort maxPort binds).outcome = .found p →
        minPort ≤ p ∧ p ≤ maxPort) ∧
    (∀ (minPort maxPort k p : Nat) (rest : List BindResult),
        minPort ≤ p → p ≤ maxPort →
        find_free_port minPort maxPort
            (List.replicate k .fail ++ .ok p :: rest) =
          ⟨k + 1, k, .found p⟩) :=
  ⟨find_free_port_found_in_range, find_free_port_fail_then_ok⟩

/-- Witness for C4 at concrete inputs: three failures then a successful bind
of port 12345 within `[1024, 65535]` gives four attempts, three sleeps. -/
theorem find_free_port_range_and_retry_witness :
    ((find_free_port 1024 65535 [.fail, .ok 12345]).outcome = .found 12345 →
      1024 ≤ 12345 ∧ 12345 ≤ 65535) ∧
    find_free_port 1024 65535
        (List.replicate 3 .fail ++ .ok 12345 :: []) =
      ⟨4, 3, .found 12345⟩ :=
  ⟨find_free_port_range_and_retry.1 1024 65535 [.fail, .ok 12345] 12345,
   find_free_port_range_and_retry.2 1024 65535 3 12345 []
     (by decide) (by decide)⟩

/-- C5: with `max_attempts ≥ 1` bind outcomes all failing, `find_free_port`
raises `PortBindingError` after exactly `max_attempts` bind attempts and
exactly `max_attempts - 1` backoff sleeps. -/
theorem find_free_port_exhaustion (minPort maxPort m : Nat) (hm : 1 ≤ m) :
    find_free_port minPort maxPort (List.replicate m .fail) =
      ⟨m, m - 1, .bindError⟩ := by
  have h := find_free_port_all_fail minPort maxPort (List.replicate m .fail)
    (fun x hx => List.eq_of_mem_replicate hx)
    (by simp only [ne_eq, List.replicate_eq_nil_iff]; omega)
  simpa using h

/-- Witness for C5 at a concrete input: three consecutive bind failures give
`PortBindingError` with three attempts and two sleeps. -/
theorem find_free_port_exhaustion_witness :
    find_free_port 1024 65535 (List.replicate 3 .fail) = ⟨3, 2, .bindError⟩ :=
  find_free_port_exhaustion 1024 65535 3 (by decide)

/-- A run whose first probes are connection errors observed before the
deadline continues from the remaining script, adding one request and one
sleep per such probe. -/
theorem waitForServerLoop_connError_skip (timeout t0 : ℚ) :
    ∀ (ante : List ℚ) (evTail : List ProbeResult) (timesTail : List ℚ),
      (∀ t ∈ ante, t - t0 ≤ timeout) →
      waitForServerLoop timeout t0
          (List.replicate ante.length .connError ++ evTail)
          (ante ++ timesTail) =
        ⟨(waitForServerLoop timeout t0 evTail timesTail).requests + ante.length,
         (waitForServerLoop timeout t0 evTail timesTail).sleeps + ante.length,
         (waitForServerLoop timeout t0 evTail timesTail).result⟩ := by
  intro ante
  induction ante with
  | nil => intro evTail timesTail _; simp
  | cons a as ih =>
    intro evTail timesTail hante
    have ha : ¬ a - t0 > timeout := by
      have := hante a (by simp)
      exact not_lt.mpr this
    have ih' := ih evTail timesTail (fun t ht => hante t (List.mem_cons_of_mem _ ht))
    simp only [List.length_cons, List.replicate_succ, List.cons_append]
    simp only [waitForServerLoop]
    rw [if_neg ha, ih']
    simp only [WaitStats.mk.injEq]
    exact ⟨by omega, by omega, trivial⟩

/-- A run that performed no request has exhausted its probe script. -/
theorem waitForServerLoop_requests_zero (timeout t0 : ℚ)
    (events : List ProbeResult) (times : List ℚ)
    (h : (waitForServerLoop timeout t0 events times).requests = 0) :
    (waitForServerLoop timeout t0 events times).result = .fuelExhausted := by
  cases events with
  | nil => rfl
  | cons e rest =>
    cases e with
    | response s =>
      by_cases hs : s = 200
      · simp [waitForServerLoop, hs] at h
      · simp [waitForServerLoop, hs] at h
    | connError =>
      cases times with
      | nil => simp [waitForServerLoop] at h
      | cons t trest =>
        by_cases ht : t - t0 > timeout
        · simp [waitForServerLoop, ht] at h
        · simp [waitForServerLoop, ht] at h
    | reqError => simp [waitForServerLoop] at h

/-- C2 counterexample: a first response with status 500 does not make
`wait_for_server` return after one request — a second request is performed
(the claim asserts exactly one request for any received response). -/
theorem wait_for_server_non200_counterexample :
    (wait_for_server 10 [.response 500, .response 200] [0]).requests ≠ 1 := by
  decide

/-- C2 (amended): `wait_for_server` returns successfully after exactly one
request and zero sleeps precisely when the first probe's response carries
status code 200; a first response with any other status is not accepted as
the readiness signal. -/
theorem wait_for_server_one_request_iff_status200 (timeout t0 : ℚ)
    (ts : List ℚ) (s : Nat) (rest : List ProbeResult) :
    wait_for_server timeout (.response s :: rest) (t0 :: ts) =
      ⟨1, 0, .ready⟩ ↔ s = 200 := by
  constructor
  · intro h
    by_contra hs
    rw [wait_for_server] at h
    simp only [waitForServerLoop, if_neg hs, WaitStats.mk.injEq] at h
    obtain ⟨h1, _, h3⟩ := h
    have h0 : (waitForServerLoop timeout t0 rest ts).requests = 0 := by omega
    have := waitForServerLoop_requests_zero timeout t0 rest ts h0
    rw [h3] at this
    exact absurd this (by decide)
  · intro hs
    subst hs
    simp [wait_for_server, waitForServerLoop]

/-- Witness for the amended C2 at a concrete input: a single status-200
response gives one request, zero sleeps, ready. -/
theorem wait_for_server_one_request_iff_status200_witness :
    wait_for_server 10 [.response 200] [0] = ⟨1, 0, .ready⟩ :=
  (wait_for_server_one_request_iff_status200 10 0 [] 200 []).mpr rfl

/-- C6: when every probe attempt yields a connection error, `wait_for_server`
raises the timeout error at the first clock reading that exceeds
`start_time + timeout`; each connection-refused probe observed before the
deadline is followed by one `retry_interval` sleep and a retry, so the
timed-out run performed one request per pre-deadline probe plus the final
one, and one sleep per pre-deadline probe. -/
theorem wait_for_server_timeout_on_connError (timeout t0 : ℚ) (n : Nat)
    (ante : List ℚ) (tj : ℚ) (post : List ℚ)
    (hn : ante.length < n)
    (hante : ∀ t ∈ ante, t - t0 ≤ timeout)
    (hj : tj - t0 > timeout) :
    wait_for_server timeout (List.replicate n .connError)
        (t0 :: (ante ++ tj :: post)) =
      ⟨ante.length + 1, ante.length, .timedOut⟩ := by
  simp only [wait_for_server]
  have hsplit : List.replicate n ProbeResult.connError =
      List.replicate ante.length ProbeResult.connError ++
        (ProbeResult.connError ::
          List.replicate (n - ante.length - 1) ProbeResult.connError) := by
    conv_lhs =>
      rw [show n = ante.length + ((n - ante.length - 1) + 1) from by omega]
    rw [List.replicate_add, List.replicate_succ]
  rw [hsplit, waitForServerLoop_connError_skip timeout t0 ante _ _ hante]
  have hinner : waitForServerLoop timeout t0
      (ProbeResult.connError ::
        List.replicate (n - ante.length - 1) ProbeResult.connError)
      (tj :: post) = ⟨1, 0, .timedOut⟩ := by
    simp only [waitForServerLoop]
    rw [if_pos hj]
  rw [hinner]
  simp only [WaitStats.mk.injEq]
  exact ⟨by omega, by omega, trivial⟩

/-- Witness for C6 at concrete inputs: with `timeout = 1`, start time 0,
one pre-deadline connection error read at time 1 and the next at time 2,
the run times out after two requests and one sleep. -/
theorem wait_for_server_timeout_on_connError_witness :
    ([1].length < 3 ∧ (∀ t ∈ ([1] : List ℚ), t - 0 ≤ 1) ∧ (2 : ℚ) - 0 > 1) ∧
    wait_for_server 1 (List.replicate 3 .connError) (0 :: ([1] ++ 2 :: [])) =
      ⟨2, 1, .timedOut⟩ :=
  ⟨⟨by norm_num, by norm_num, by norm_num⟩,
   wait_for_server_timeout_on_connError 1 0 3 [1] 2 []
     (by norm_num) (by norm_num) (by norm_num)⟩

/-- C7: a probe that fails with a request-level error other than a connection
error makes `wait_for_server` raise `NetworkError` immediately: however many
pre-deadline connection errors preceded it, the run ends at that probe with no
further request and no sleep after it. -/
theorem wait_for_server_network_error_immediate (timeout t0 : ℚ)
    (ante : List ℚ) (timesTail : List ℚ) (evRest : List ProbeResult)
    (hante : ∀ t ∈ ante, t - t0 ≤ timeout) :
    wait_for_server timeout
        (List.replicate ante.length .connError ++ .reqError :: evRest)
        (t0 :: (ante ++ timesTail)) =
      ⟨ante.length + 1, ante.length, .networkError⟩ := by
  simp only [wait_for_server]
  rw [waitForServerLoop_connError_skip timeout t0 ante _ _ hante]
  have hinner : waitForServerLoop timeout t0 (.reqError :: evRest) timesTail =
      ⟨1, 0, .networkError⟩ := rfl
  rw [hinner]
  simp only [WaitStats.mk.injEq]
  exact ⟨by omega, by omega, trivial⟩

/-- Witness for C7 at concrete inputs: a request-level error on the very
first probe raises the network error after one request and zero sleeps, and
after one pre-deadline connection error it raises after two requests and one
sleep. -/
theorem wait_for_server_network_error_immediate_witness :
    (∀ t ∈ ([1] : List ℚ), t - 0 ≤ 10) ∧
    wait_for_server 10 (List.replicate ([1] : List ℚ).length .connError ++
        .reqError :: []) (0 :: ([1] ++ [])) = ⟨2, 1, .networkError⟩ :=
  ⟨by norm_num,
   wait_for_server_network_error_immediate 10 0 [1] [] [] (by norm_num)⟩

/-- C8: `run_streamlit` builds the argument vector
`[runner, "run", script_path, "--key=value", ...]` with one flag per options
entry in insertion order, installs it process-wide, delegates to the hosted
CLI entry point, and wraps any exception it raises as a `ProcessError`. -/
theorem run_streamlit_argv_and_wrapping (scriptPath : String)
    (options : List (String × String)) (mainExc : Option String) :
    (run_streamlit scriptPath options mainExc).argv.length =
      options.length + 3 ∧
    (run_streamlit scriptPath options mainExc).argv.take 3 =
      ["streamlit", "run", scriptPath] ∧
    (∀ i, ∀ h : i < options.length,
      ((run_streamlit scriptPath options mainExc).argv)[3 + i]? =
        some ("--" ++ (options.get ⟨i, h⟩).1 ++ "=" ++ (options.get ⟨i, h⟩).2)) ∧
    (run_streamlit scriptPath options mainExc).stcliCalled = true ∧
    (mainExc = none →
      (run_streamlit scriptPath options mainExc).result = .ok ()) ∧
    (∀ e, mainExc = some e →
      (run_streamlit scriptPath options mainExc).result =
        .error ("Failed to run Streamlit: " ++ e)) := by
  refine ⟨?_, ?_, ?_, rfl, ?_, ?_⟩
  · simp [run_streamlit]
  · simp [run_streamlit]
  · intro i h
    rw [show 3 + i = i + 1 + 1 + 1 from by omega]
    simp [run_streamlit, List.getElem?_cons_succ, List.getElem?_map,
      List.getElem?_eq_getElem h]
  · intro h; subst h; rfl
  · intro e he; subst he; rfl

/-- Witness for C8 at concrete inputs: one option entry produces the flag at
index 3, and a raised exception surfaces wrapped as a `ProcessError`. -/
theorem run_streamlit_argv_and_wrapping_witness :
    ((run_streamlit "test_script.py" [("theme.base", "dark")]
        (some "boom")).argv)[3 + 0]? = some "--theme.base=dark" ∧
    (run_streamlit "test_script.py" [("theme.base", "dark")]
        (some "boom")).result = .error "Failed to run Streamlit: boom" := by
  have h := run_streamlit_argv_and_wrapping "test_script.py"
    [("theme.base", "dark")] (some "boom")
  exact ⟨by simpa using h.2.2.1 0 (by decide), by simpa using h.2.2.2.2.2 "boom" rfl⟩

/-- No warning event is a terminate event. -/
theorem count_terminate_in_warns (l : List String) :
    (l.map Event.warn).count Event.terminateChild = 0 := by
  rw [List.count_eq_zero]
  simp

/-- No warning event is a join event. -/
theorem count_join_in_warns (l : List String) :
    (l.map Event.warn).count Event.joinChild = 0 := by
  rw [List.count_eq_zero]
  simp

/-- No warning event is a process-start event. -/
theorem startChild_notin_warns (l : List String) :
    Event.startChild ∉ l.map Event.warn := by
  simp

/-- C1 (bug witness run): calling `start_desktop_app` with caller options
`{"server.port": "9999"}` while the allocator picks port 8501 logs the
override warning for `server.port`, yet the Configuration Set passed to the
child still maps `server.port` to the caller's `"9999"`, not to `"8501"`:
in `{**secure_defaults, **options}` the caller's entries win, contradicting
the logged "will be ignored" and the mandatory-entries-win invariant. -/
theorem start_desktop_app_caller_overrides_mandatory :
    Event.warn "server.port" ∈
      (start_desktop_app
        ⟨⟨"app.py", true, true, ".py"⟩, ⟨true, false⟩, ⟨true, 800⟩, ⟨true, 600⟩,
          .dict [⟨true, "server.port", true, "9999"⟩]⟩
        ⟨false, some 8501, none, false, true⟩).trace ∧
    dictGet ((start_desktop_app
        ⟨⟨"app.py", true, true, ".py"⟩, ⟨true, false⟩, ⟨true, 800⟩, ⟨true, 600⟩,
          .dict [⟨true, "server.port", true, "9999"⟩]⟩
        ⟨false, some 8501, none, false, true⟩).spawnedOptions.getD [])
      "server.port" = some "9999" ∧
    dictGet ((start_desktop_app
        ⟨⟨"app.py", true, true, ".py"⟩, ⟨true, false⟩, ⟨true, 800⟩, ⟨true, 600⟩,
          .dict [⟨true, "server.port", true, "9999"⟩]⟩
        ⟨false, some 8501, none, false, true⟩).spawnedOptions.getD [])
      "server.port" ≠ some (toString 8501) := by
  refine ⟨by decide, by decide, by decide⟩

/-- C3 counterexample: a successful run (readiness succeeds, webview returns
normally) in which the child process has already exited when the `finally`
block runs (`is_alive()` false) performs zero terminate calls — the claimed
"terminate-and-join invoked exactly once for all successful runs" fails. -/
theorem start_desktop_app_dead_child_no_terminate :
    (start_desktop_app
        ⟨⟨"app.py", true, true, ".py"⟩, ⟨true, false⟩, ⟨true, 800⟩, ⟨true, 600⟩,
          .noOptions⟩
        ⟨false, some 8501, none, false, false⟩).result = .ok ∧
    (start_desktop_app
        ⟨⟨"app.py", true, true, ".py"⟩, ⟨true, false⟩, ⟨true, 800⟩, ⟨true, 600⟩,
          .noOptions⟩
        ⟨false, some 8501, none, false, false⟩).trace.count
      Event.terminateChild = 0 := by
  refine ⟨by decide, by decide⟩

/-- Every `start_desktop_app` trace has one of three shapes: empty
(validation failed), warnings plus a failed allocation, or warnings plus the
full child-process sequence with the conditional terminate-and-join tail. -/
theorem start_desktop_app_trace_cases (inp : AppInput) (env : Env) :
    (start_desktop_app inp env).trace = [] ∨
    (∃ w : List String,
      (start_desktop_app inp env).trace = w.map Event.warn ++ [Event.allocPort]) ∨
    (∃ w : List String, ∃ mid : List Event,
      (mid = [Event.probe] ∨ mid = [Event.probe, Event.openWindow]) ∧
      (start_desktop_app inp env).trace =
        w.map Event.warn ++ [Event.allocPort, Event.spawnChild, Event.startChild]
          ++ mid ++
          (if env.childAlive = true then [Event.terminateChild, Event.joinChild]
           else [])) := by
  unfold start_desktop_app
  cases validate_script_path inp.script env.pytestLoaded with
  | uncaughtError => exact Or.inl rfl
  | validationError m => exact Or.inl rfl
  | ok =>
    cases validate_options inp.options with
    | error m => exact Or.inl rfl
    | ok opts =>
      dsimp only
      by_cases ht : ¬ inp.title.isStr = true ∨ inp.title.blank = true
      · rw [if_pos ht]; exact Or.inl rfl
      · rw [if_neg ht]
        by_cases hw : ¬ inp.width.isInt = true ∨ inp.width.val ≤ 0
        · rw [if_pos hw]; exact Or.inl rfl
        · rw [if_neg hw]
          by_cases hh : ¬ inp.height.isInt = true ∨ inp.height.val ≤ 0
          · rw [if_pos hh]; exact Or.inl rfl
          · rw [if_neg hh]
            cases env.portAlloc with
            | none => exact Or.inr (Or.inl ⟨_, rfl⟩)
            | some port =>
              cases env.waitErr with
              | some we =>
                dsimp only
                refine Or.inr (Or.inr ⟨List.filter
                  (fun k => opts.any fun e => decide (e.1 = k))
                  overridden_options, [Event.probe], Or.inl rfl, ?_⟩)
                simp [List.append_assoc]
              | none =>
                dsimp only
                by_cases hwv : env.webviewFails = true
                · rw [if_pos hwv]
                  refine Or.inr (Or.inr ⟨List.filter
                    (fun k => opts.any fun e => decide (e.1 = k))
                    overridden_options, [Event.probe, Event.openWindow],
                    Or.inr rfl, ?_⟩)
                  simp [List.append_assoc]
                · rw [if_neg hwv]
                  refine Or.inr (Or.inr ⟨List.filter
                    (fun k => opts.any fun e => decide (e.1 = k))
                    overridden_options, [Event.probe, Event.openWindow],
                    Or.inr rfl, ?_⟩)
                  simp [List.append_assoc]

/-- C3 (amended): terminate is never invoked more than once; on every exit
path on which the child was started, if `is_alive()` reports the child alive
at cleanup it is terminated and then joined, as the final two actions before
`start_desktop_app` returns or its error propagates, exactly once; if the
child has already exited, terminate and join are skipped (so no running child
is ever left behind, but a successful run with a dead child performs zero
terminate calls). -/
theorem start_desktop_app_cleanup_amended (inp : AppInput) (env : Env) :
    (start_desktop_app inp env).trace.count Event.terminateChild ≤ 1 ∧
    (Event.startChild ∈ (start_desktop_app inp env).trace →
      (env.childAlive = true →
        (∃ p, (start_desktop_app inp env).trace =
            p ++ [Event.terminateChild, Event.joinChild]) ∧
        (start_desktop_app inp env).trace.count Event.terminateChild = 1 ∧
        (start_desktop_app inp env).trace.count Event.joinChild = 1) ∧
      (env.childAlive = false →
        (start_desktop_app inp env).trace.count Event.terminateChild = 0 ∧
        (start_desktop_app inp env).trace.count Event.joinChild = 0)) := by
  rcases start_desktop_app_trace_cases inp env with h | ⟨w, h⟩ | ⟨w, mid, hmid, h⟩
  · rw [h]; simp
  · rw [h]
    constructor
    · simp [List.count_append, count_terminate_in_warns]
    · intro hmem
      exact absurd hmem (by simp [startChild_notin_warns])
  · have hcmid_t : mid.count Event.terminateChild = 0 := by
      rcases hmid with rfl | rfl <;> decide
    have hcmid_j : mid.count Event.joinChild = 0 := by
      rcases hmid with rfl | rfl <;> decide
    have hwt : ∀ e : Event, (w.map Event.warn).count e =
        (w.map Event.warn).count e := fun _ => rfl
    cases hca : env.childAlive with
    | true =>
      rw [h, hca, if_pos rfl]
      have hc1 : (w.map Event.warn ++
          [Event.allocPort, Event.spawnChild, Event.startChild] ++ mid ++
          [Event.terminateChild, Event.joinChild]).count Event.terminateChild
          = 1 := by
        simp [List.count_append, count_terminate_in_warns, hcmid_t]
      have hc2 : (w.map Event.warn ++
          [Event.allocPort, Event.spawnChild, Event.startChild] ++ mid ++
          [Event.terminateChild, Event.joinChild]).count Event.joinChild
          = 1 := by
        simp [List.count_append, count_join_in_warns, hcmid_j]
      refine ⟨by rw [hc1], fun _ => ⟨fun _ => ⟨⟨w.map Event.warn ++
        [Event.allocPort, Event.spawnChild, Event.startChild] ++ mid,
        by simp [List.append_assoc]⟩, hc1, hc2⟩,
        fun hfalse => absurd hfalse (by decide)⟩⟩
    | false =>
      rw [h, hca, if_neg (by decide)]
      have hc1 : (w.map Event.warn ++
          [Event.allocPort, Event.spawnChild, Event.startChild] ++ mid ++
          ([] : List Event)).count Event.terminateChild = 0 := by
        simp [List.count_append, count_terminate_in_warns, hcmid_t]
      have hc2 : (w.map Event.warn ++
          [Event.allocPort, Event.spawnChild, Event.startChild] ++ mid ++
          ([] : List Event)).count Event.joinChild = 0 := by
        simp [List.count_append, count_join_in_warns, hcmid_j]
      exact ⟨by rw [hc1]; omega, fun _ =>
        ⟨fun htrue => absurd htrue (by decide), fun _ => ⟨hc1, hc2⟩⟩⟩

/-- Witness for the amended C3: in a successful concrete run with the child
alive at cleanup, terminate and join each happen exactly once, as the final
two actions. -/
theorem start_desktop_app_cleanup_amended_witness :
    ((start_desktop_app
        ⟨⟨"app.py", true, true, ".py"⟩, ⟨true, false⟩, ⟨true, 800⟩, ⟨true, 600⟩,
          .noOptions⟩
        ⟨false, some 8501, none, false, true⟩).trace.count
      Event.terminateChild = 1 ∧
    (start_desktop_app
        ⟨⟨"app.py", true, true, ".py"⟩, ⟨true, false⟩, ⟨true, 800⟩, ⟨true, 600⟩,
          .noOptions⟩
        ⟨false, some 8501, none, false, true⟩).trace.count
      Event.joinChild = 1) := by
  have h := (start_desktop_app_cleanup_amended
    ⟨⟨"app.py", true, true, ".py"⟩, ⟨true, false⟩, ⟨true, 800⟩, ⟨true, 600⟩,
      .noOptions⟩
    ⟨false, some 8501, none, false, true⟩).2 (by decide) |>.1 rfl
  exact ⟨h.2.1, h.2.2⟩

/-- Script validation can only escape unwrapped when pytest-mode meets a
failing path resolution. -/
theorem validate_script_path_not_uncaught (s : ScriptPath) (tm : Bool)
    (h : s.resolveOk = true ∨ tm = false) :
    validate_script_path s tm ≠ .uncaughtError := by
  unfold validate_script_path
  rcases h with h | h
  · rw [if_pos h]
    split
    · simp
    · split <;> simp
  · subst h
    split
    · rw [if_neg (by decide)]
      split <;> simp
    · rw [if_neg (by decide)]
      simp

/-- Outside test mode, a script path that does not resolve to an existing
`.py` file makes `validate_script_path` raise a `ValidationError`. -/
theorem validate_script_path_invalid (s : ScriptPath)
    (h : ¬(s.resolveOk = true ∧ s.isFile = true ∧ s.suffixLower = ".py")) :
    ∃ m, validate_script_path s false = .validationError m := by
  unfold validate_script_path
  by_cases hro : s.resolveOk = true
  · rw [if_pos hro, if_neg (by decide),
      if_neg (fun hc => h ⟨hro, hc⟩)]
    exact ⟨_, rfl⟩
  · rw [if_neg hro, if_neg (by decide)]
    exact ⟨_, rfl⟩

/-- A non-dict options object, or a dict with a non-string key or value,
makes `validate_options` raise a `ValidationError`. -/
theorem validate_options_invalid (o : OptionsArg)
    (h : o = .notDict ∨ ∃ es, o = .dict es ∧
      es.all (fun e => e.keyIsStr && e.valIsStr) = false) :
    ∃ m, validate_options o = .error m := by
  rcases h with rfl | ⟨es, rfl, hes⟩
  · exact ⟨_, rfl⟩
  · exact ⟨"Option keys and values must be strings",
      by simp [validate_options, hes]⟩

/-- C9: any invalid input — a script path that does not resolve to an
existing `.py` file outside test mode, an empty/whitespace or non-string
title, a non-positive or non-integer width or height, or an options value
that is not a flat string-to-string dict — makes `start_desktop_app` raise
the wrapped validation error before anything happens: the trace is empty (no
warning logged, no port allocated, no child spawned) and no options were
passed to any child.  (The side condition rules out the degenerate
pytest-mode path-resolution failure, where an `UnboundLocalError` escapes
instead.) -/
theorem start_desktop_app_validation_fail_fast (inp : AppInput) (env : Env)
    (hres : inp.script.resolveOk = true ∨ env.pytestLoaded = false)
    (h : (env.pytestLoaded = false ∧
            ¬(inp.script.resolveOk = true ∧ inp.script.isFile = true ∧
              inp.script.suffixLower = ".py")) ∨
         (inp.title.isStr = false ∨ inp.title.blank = true) ∨
         (inp.width.isInt = false ∨ inp.width.val ≤ 0) ∨
         (inp.height.isInt = false ∨ inp.height.val ≤ 0) ∨
         inp.options = .notDict ∨
         (∃ es, inp.options = .dict es ∧
           es.all (fun e => e.keyIsStr && e.valIsStr) = false)) :
    (start_desktop_app inp env).result = .appError "Validation error" ∧
    (start_desktop_app inp env).trace = [] ∧
    (start_desktop_app inp env).spawnedOptions = none := by
  unfold start_desktop_app
  cases hv : validate_script_path inp.script env.pytestLoaded with
  | uncaughtError => exact absurd hv (validate_script_path_not_uncaught _ _ hres)
  | validationError m => exact ⟨rfl, rfl, rfl⟩
  | ok =>
    dsimp only
    cases ho : validate_options inp.options with
    | error m => exact ⟨rfl, rfl, rfl⟩
    | ok opts =>
      dsimp only
      rcases h with ⟨hp, hscript⟩ | htl | hwd | hht | hnd | hbad
      · rw [hp] at hv
        obtain ⟨m, hm⟩ := validate_script_path_invalid inp.script hscript
        rw [hv] at hm
        simp at hm
      · have hcond : ¬inp.title.isStr = true ∨ inp.title.blank = true := by
          rcases htl with h' | h'
          · exact Or.inl (by simp [h'])
          · exact Or.inr h'
        rw [if_pos hcond]
        exact ⟨rfl, rfl, rfl⟩
      · by_cases ht : ¬ inp.title.isStr = true ∨ inp.title.blank = true
        · rw [if_pos ht]; exact ⟨rfl, rfl, rfl⟩
        · rw [if_neg ht]
          have hcond : ¬inp.width.isInt = true ∨ inp.width.val ≤ 0 := by
            rcases hwd with h' | h'
            · exact Or.inl (by simp [h'])
            · exact Or.inr h'
          rw [if_pos hcond]
          exact ⟨rfl, rfl, rfl⟩
      · by_cases ht : ¬ inp.title.isStr = true ∨ inp.title.blank = true
        · rw [if_pos ht]; exact ⟨rfl, rfl, rfl⟩
        · rw [if_neg ht]
          by_cases hw2 : ¬ inp.width.isInt = true ∨ inp.width.val ≤ 0
          · rw [if_pos hw2]; exact ⟨rfl, rfl, rfl⟩
          · rw [if_neg hw2]
            have hcond : ¬inp.height.isInt = true ∨ inp.height.val ≤ 0 := by
              rcases hht with h' | h'
              · exact Or.inl (by simp [h'])
              · exact Or.inr h'
            rw [if_pos hcond]
            exact ⟨rfl, rfl, rfl⟩
      · obtain ⟨m, hm⟩ := validate_options_invalid inp.options (Or.inl hnd)
        rw [ho] at hm
        simp at hm
      · obtain ⟨m, hm⟩ := validate_options_invalid inp.options (Or.inr hbad)
        rw [ho] at hm
        simp at hm

/-- Witness for C9 at a concrete input: a whitespace-only title is rejected
with the wrapped validation error and an empty trace. -/
theorem start_desktop_app_validation_fail_fast_witness :
    (start_desktop_app
        ⟨⟨"app.py", true, true, ".py"⟩, ⟨true, true⟩, ⟨true, 800⟩, ⟨true, 600⟩,
          .noOptions⟩
        ⟨false, some 8501, none, false, true⟩).result =
      .appError "Validation error" ∧
    (start_desktop_app
        ⟨⟨"app.py", true, true, ".py"⟩, ⟨true, true⟩, ⟨true, 800⟩, ⟨true, 600⟩,
          .noOptions⟩
        ⟨false, some 8501, none, false, true⟩).trace = [] ∧
    (start_desktop_app
        ⟨⟨"app.py", true, true, ".py"⟩, ⟨true, true⟩, ⟨true, 800⟩, ⟨true, 600⟩,
          .noOptions⟩
        ⟨false, some 8501, none, false, true⟩).spawnedOptions = none :=
  start_desktop_app_validation_fail_fast _ _ (Or.inl rfl)
    (Or.inr (Or.inl (Or.inr rfl)))

/-- C10: when `pytest` is in `sys.modules`, `start_desktop_app` skips the
file-existence and `.py`-suffix check entirely: for any script path
(whatever `is_file()` and the suffix report), validation passes and the run
proceeds to port allocation; when pytest is not loaded, a script path whose
resolved target is not an existing file is rejected with the validation
error before anything happens. -/
theorem start_desktop_app_pytest_backdoor (inp : AppInput) (env : Env)
    (hres : inp.script.resolveOk = true)
    (ht : inp.title.isStr = true) (htb : inp.title.blank = false)
    (hwi : inp.width.isInt = true) (hwv : 0 < inp.width.val)
    (hhi : inp.height.isInt = true) (hhv : 0 < inp.height.val)
    (hopts : ∃ o, validate_options inp.options = Except.ok o) :
    (env.pytestLoaded = true →
      Event.allocPort ∈ (start_desktop_app inp env).trace) ∧
    (env.pytestLoaded = false → inp.script.isFile = false →
      (start_desktop_app inp env).result = .appError "Validation error" ∧
      (start_desktop_app inp env).trace = []) := by
  constructor
  · intro hp
    obtain ⟨o, ho⟩ := hopts
    unfold start_desktop_app
    rw [hp]
    have hv : validate_script_path inp.script true = .ok := by
      unfold validate_script_path
      rw [if_pos hres, if_pos rfl]
    rw [hv]
    dsimp only
    rw [ho]
    dsimp only
    rw [if_neg (by simp [ht, htb])]
    rw [if_neg (by simp [hwi]; omega)]
    rw [if_neg (by simp [hhi]; omega)]
    cases env.portAlloc with
    | none => simp
    | some p =>
      cases env.waitErr with
      | some we => simp
      | none =>
        dsimp only
        by_cases hwf : env.webviewFails = true
        · rw [if_pos hwf]; simp
        · rw [if_neg hwf]; simp
  · intro hp hfile
    unfold start_desktop_app
    rw [hp]
    obtain ⟨m, hm⟩ := validate_script_path_invalid inp.script
      (fun hc => absurd hc.2.1 (by simp [hfile]))
    rw [hm]
    exact ⟨rfl, rfl⟩

/-- Witness for C10 at concrete inputs: a script whose resolved path is not
an existing file passes validation and reaches port allocation when pytest is
loaded, and is rejected with an empty trace when it is not. -/
theorem start_desktop_app_pytest_backdoor_witness :
    Event.allocPort ∈
      (start_desktop_app
        ⟨⟨"ghost.py", true, false, ".py"⟩, ⟨true, false⟩, ⟨true, 800⟩,
          ⟨true, 600⟩, .noOptions⟩
        ⟨true, some 8501, none, false, true⟩).trace ∧
    ((start_desktop_app
        ⟨⟨"ghost.py", true, false, ".py"⟩, ⟨true, false⟩, ⟨true, 800⟩,
          ⟨true, 600⟩, .noOptions⟩
        ⟨false, some 8501, none, false, true⟩).result =
      .appError "Validation error" ∧
     (start_desktop_app
        ⟨⟨"ghost.py", true, false, ".py"⟩, ⟨true, false⟩, ⟨true, 800⟩,
          ⟨true, 600⟩, .noOptions⟩
        ⟨false, some 8501, none, false, true⟩).trace = []) :=
  ⟨(start_desktop_app_pytest_backdoor
      ⟨⟨"ghost.py", true, false, ".py"⟩, ⟨true, false⟩, ⟨true, 800⟩,
        ⟨true, 600⟩, .noOptions⟩
      ⟨true, some 8501, none, false, true⟩ rfl rfl rfl rfl (by decide) rfl
      (by decide) ⟨[], rfl⟩).1 rfl,
   (start_desktop_app_pytest_backdoor
      ⟨⟨"ghost.py", true, false, ".py"⟩, ⟨true, false⟩, ⟨true, 800⟩,
        ⟨true, 600⟩, .noOptions⟩
      ⟨false, some 8501, none, false, true⟩ rfl rfl rfl rfl (by decide) rfl
      (by decide) ⟨[], rfl⟩).2 rfl rfl⟩

end StreamlitDesktopApp
